import Mathlib

/-!
Shallow embedding of the rust-core DEX arbitrage engine.

Machine integers are modelled as `Nat` with explicit reduction modulo `2 ^ 256`
(the `U256` type of `alloy_primitives`, whose release-mode arithmetic wraps) and
modulo `2 ^ 64` for `u64`.  Addresses are 20-byte identities whose ordering is
lexicographic on the bytes, which coincides with the numeric order of their
value, so an address is modelled as a `Nat`.  Floating-point fields (`f64`) are
not statable; they are carried at an abstract type `F` and the floating-point
computations of the source appear as function parameters of the operations that
perform them.  Real-time instants (`std::time::Instant`, `SystemTime`) are
modelled as an explicit `now` argument of type `Nat`.
-/

/-- Modulus of the unsigned 256-bit integers used by the AMM math. -/
def U256MOD : Nat := 2 ^ 256

/-- Largest representable 256-bit value; the sentinel `U256::MAX`. -/
def U256MAX : Nat := U256MOD - 1

/-- Modulus of `u64` values. -/
def U64MOD : Nat := 2 ^ 64

/-- Wrapping 256-bit multiplication. -/
def umul (a b : Nat) : Nat := a * b % U256MOD

/-- Wrapping 256-bit addition. -/
def uadd (a b : Nat) : Nat := (a + b) % U256MOD

/-- An address is a 20-byte identity; modelled by its numeric value. -/
abbrev Address := Nat

/-- Supported blockchain networks (types.rs). -/
inductive ChainId where
  | Ethereum
  | Arbitrum
  | Base
  | Polygon
deriving DecidableEq

/-- Numeric chain id (types.rs, `ChainId::chain_id`). -/
def ChainId.chain_id : ChainId → Nat
  | ChainId.Ethereum => 1
  | ChainId.Arbitrum => 42161
  | ChainId.Base => 8453
  | ChainId.Polygon => 137

/-- Nominal block time in milliseconds (types.rs, `ChainId::block_time_ms`). -/
def ChainId.block_time_ms : ChainId → Nat
  | ChainId.Ethereum => 12000
  | ChainId.Arbitrum => 250
  | ChainId.Base => 2000
  | ChainId.Polygon => 2000

/-- Supported DEX protocols (types.rs). -/
inductive DexProtocol where
  | UniswapV2
  | UniswapV3
  | SushiSwap
  | Curve
  | Balancer
  | Camelot
  | Aerodrome
  | QuickSwap
deriving DecidableEq

/-- Uniswap V2 style pool, constant product (pools.rs). -/
structure UniswapV2Pool where
  address : Address
  token0 : Address
  token1 : Address
  reserve0 : Nat
  reserve1 : Nat
  fee_bps : Nat
  chain : ChainId
  dex : DexProtocol
  block_number : Nat
deriving DecidableEq

/-- Input-side reserve selected by `token_in` in `get_amount_out`
(pools.rs line 30: `(reserve0, reserve1)` if `token_in == token0`,
else `(reserve1, reserve0)`; this is the first component). -/
def UniswapV2Pool.out_reserve_in (p : UniswapV2Pool) (token_in : Address) : Nat :=
  if token_in = p.token0 then p.reserve0 else p.reserve1

/-- Output-side reserve selected by `token_in` in `get_amount_out`
(second component of the same pair). -/
def UniswapV2Pool.out_reserve_out (p : UniswapV2Pool) (token_in : Address) : Nat :=
  if token_in = p.token0 then p.reserve1 else p.reserve0

/-- Constant-product output quote (pools.rs, `UniswapV2Pool::get_amount_out`).
All multiplications and the addition are 256-bit wrapping operations. -/
def UniswapV2Pool.get_amount_out (p : UniswapV2Pool) (amount_in : Nat) (token_in : Address) : Nat :=
  if amount_in = 0 then 0
  else if p.out_reserve_in token_in = 0 ∨ p.out_reserve_out token_in = 0 then 0
  else
    let fee_multiplier := 10000 - p.fee_bps
    let amount_in_with_fee := umul amount_in fee_multiplier
    umul amount_in_with_fee (p.out_reserve_out token_in) /
      uadd (umul (p.out_reserve_in token_in) 10000) amount_in_with_fee

/-- Input-side reserve selected by `token_out` in `get_amount_in`
(pools.rs line 54: `(reserve0, reserve1)` if `token_out == token1`,
else `(reserve1, reserve0)`; first component). -/
def UniswapV2Pool.in_reserve_in (p : UniswapV2Pool) (token_out : Address) : Nat :=
  if token_out = p.token1 then p.reserve0 else p.reserve1

/-- Output-side reserve selected by `token_out` in `get_amount_in`
(second component of the same pair). -/
def UniswapV2Pool.in_reserve_out (p : UniswapV2Pool) (token_out : Address) : Nat :=
  if token_out = p.token1 then p.reserve1 else p.reserve0

/-- Required input for a desired output (pools.rs, `UniswapV2Pool::get_amount_in`).
Returns `U256MAX` when a selected reserve is zero or the requested output is not
below the output reserve.  The subtraction `reserve_out - amount_out` is guarded
by the sentinel branch, so `Nat` truncated subtraction is exact here. -/
def UniswapV2Pool.get_amount_in (p : UniswapV2Pool) (amount_out : Nat) (token_out : Address) : Nat :=
  if amount_out = 0 then 0
  else if p.in_reserve_in token_out = 0 ∨ p.in_reserve_out token_out = 0 ∨
      p.in_reserve_out token_out ≤ amount_out then U256MAX
  else
    let fee_multiplier := 10000 - p.fee_bps
    uadd (umul (umul (p.in_reserve_in token_out) amount_out) 10000 /
      umul (p.in_reserve_out token_out - amount_out) fee_multiplier) 1

/-- Uniswap V3 style pool, concentrated liquidity (pools.rs).  The floating
point price helpers are not modelled. -/
structure UniswapV3Pool where
  address : Address
  token0 : Address
  token1 : Address
  fee : Nat
  tick_spacing : Int
  liquidity : Nat
  sqrt_price_x96 : Nat
  tick : Int
  chain : ChainId
  block_number : Nat
deriving DecidableEq

/-- Curve pool, StableSwap (pools.rs). -/
structure CurvePool where
  address : Address
  tokens : List Address
  balances : List Nat
  a_parameter : Nat
  fee : Nat
  chain : ChainId
  block_number : Nat
deriving DecidableEq

/-- Generic pool enum for unified handling (pools.rs). -/
inductive Pool where
  | UniswapV2 : UniswapV2Pool → Pool
  | UniswapV3 : UniswapV3Pool → Pool
  | Curve : CurvePool → Pool
deriving DecidableEq

/-- Pool address accessor (pools.rs, `Pool::address`). -/
def Pool.address : Pool → Address
  | Pool.UniswapV2 p => p.address
  | Pool.UniswapV3 p => p.address
  | Pool.Curve p => p.address

/-- Pool chain accessor (pools.rs, `Pool::chain`). -/
def Pool.chain : Pool → ChainId
  | Pool.UniswapV2 p => p.chain
  | Pool.UniswapV3 p => p.chain
  | Pool.Curve p => p.chain

/-- Pool block number accessor (pools.rs, `Pool::block_number`). -/
def Pool.block_number : Pool → Nat
  | Pool.UniswapV2 p => p.block_number
  | Pool.UniswapV3 p => p.block_number
  | Pool.Curve p => p.block_number

/-- Price with source tracking (types.rs).  The `f64` value field lives at the
abstract float type `F`. -/
structure Price (F : Type) where
  value : F
  token : Address
  quote_token : Address
  dex : DexProtocol
  chain : ChainId
  block_number : Nat
  timestamp_ms : Nat
deriving DecidableEq

/-- Key for price lookups (state.rs). -/
structure PriceKey where
  chain : ChainId
  token0 : Address
  token1 : Address
  dex : DexProtocol
deriving DecidableEq

/-- Normalizing constructor (state.rs, `PriceKey::new`): orders the two token
addresses so that `(A, B)` and `(B, A)` map to the same key. -/
def PriceKey.new (chain : ChainId) (token0 token1 : Address) (dex : DexProtocol) : PriceKey :=
  if token0 < token1 then
    { chain := chain, token0 := token0, token1 := token1, dex := dex }
  else
    { chain := chain, token0 := token1, token1 := token0, dex := dex }

/-- Pool key for lookups (state.rs). -/
structure PoolKey where
  chain : ChainId
  address : Address
deriving DecidableEq

/-- Timestamped price entry (state.rs).  `updated_at` is the `Instant` of the
insertion, modelled as a `Nat`. -/
structure PriceEntry (F : Type) where
  price : Price F
  updated_at : Nat
  block_number : Nat
deriving DecidableEq

/-- Timestamped pool entry (state.rs). -/
structure PoolEntry where
  pool : Pool
  updated_at : Nat
deriving DecidableEq

/-- Global price state (state.rs).  The three `DashMap`s are modelled as
functions to `Option`; per-entry atomicity and the `Instant`/atomic stats
fields are concurrency artifacts outside the shallow embedding, except for the
monotone `update_count` which is kept as a `Nat`. -/
structure PriceState (F : Type) where
  prices : PriceKey → Option (PriceEntry F)
  pools : PoolKey → Option PoolEntry
  block_numbers : ChainId → Option Nat
  update_count : Nat

/-- Empty state (state.rs, `PriceState::new`). -/
def PriceState.new (F : Type) : PriceState F :=
  { prices := fun _ => none
    pools := fun _ => none
    block_numbers := fun _ => none
    update_count := 0 }

/-- Price upsert (state.rs, `PriceState::update_price`): inserts under the
normalized key, unconditionally replacing any previous entry. -/
def PriceState.update_price {F : Type} (st : PriceState F) (price : Price F) (now : Nat) :
    PriceState F :=
  let key := PriceKey.new price.chain price.token price.quote_token price.dex
  let entry : PriceEntry F :=
    { price := price, updated_at := now, block_number := price.block_number }
  { st with
    prices := fun k => if k = key then some entry else st.prices k
    update_count := st.update_count + 1 }

/-- Price lookup (state.rs, `PriceState::get_price`). -/
def PriceState.get_price {F : Type} (st : PriceState F) (key : PriceKey) :
    Option (PriceEntry F) :=
  st.prices key

/-- Pool upsert (state.rs, `PriceState::update_pool`): inserts under the
`(chain, address)` key, unconditionally replacing any previous entry. -/
def PriceState.update_pool {F : Type} (st : PriceState F) (pool : Pool) (now : Nat) :
    PriceState F :=
  let key : PoolKey := { chain := pool.chain, address := pool.address }
  let entry : PoolEntry := { pool := pool, updated_at := now }
  { st with pools := fun k => if k = key then some entry else st.pools k }

/-- Pool lookup (state.rs, `PriceState::get_pool`). -/
def PriceState.get_pool {F : Type} (st : PriceState F) (chain : ChainId) (address : Address) :
    Option PoolEntry :=
  st.pools { chain := chain, address := address }

/-- Head-block update (state.rs, `PriceState::update_block`): unconditional
insert into the per-chain map. -/
def PriceState.update_block {F : Type} (st : PriceState F) (chain : ChainId) (block : Nat) :
    PriceState F :=
  { st with block_numbers := fun c => if c = chain then some block else st.block_numbers c }

/-- Head-block lookup (state.rs, `PriceState::get_block`). -/
def PriceState.get_block {F : Type} (st : PriceState F) (chain : ChainId) : Option Nat :=
  st.block_numbers chain

/-- A single swap step in a route (quotes.rs). -/
structure SwapStep where
  pool : Address
  dex : DexProtocol
  token_in : Address
  token_out : Address
  amount_in : Nat
  amount_out : Nat
  fee_bps : Nat
deriving DecidableEq

/-- A complete swap route (quotes.rs). -/
structure SwapRoute where
  steps : List SwapStep
  chain : ChainId
  total_amount_in : Nat
  total_amount_out : Nat
  gas_estimate : Nat
  price_impact_bps : Nat
deriving DecidableEq

/-- Number of hops (quotes.rs, `SwapRoute::hop_count`). -/
def SwapRoute.hop_count (r : SwapRoute) : Nat := r.steps.length

/-- Type of arbitrage opportunity (opportunities.rs). -/
inductive ArbitrageType where
  | CrossDex
  | Triangular
  | CrossChain
  | FlashLoan
deriving DecidableEq

/-- Detected arbitrage opportunity (opportunities.rs).  The `f64` fields
`profit_usd` and `confidence` live at the abstract float type `F`. -/
structure ArbitrageOpportunity (F : Type) where
  id : String
  arb_type : ArbitrageType
  chain : ChainId
  token_a : Address
  token_b : Address
  token_pair : String
  buy_route : SwapRoute
  sell_route : SwapRoute
  input_amount : Nat
  output_amount : Nat
  gross_profit : Nat
  gas_cost_wei : Nat
  net_profit : Nat
  profit_bps : Int
  profit_usd : F
  detected_at_ms : Nat
  expires_at_ms : Nat
  block_number : Nat
  confidence : F
  competing_txs : Nat
deriving DecidableEq

/-- Builder for `ArbitrageOpportunity` (opportunities.rs). -/
structure OpportunityBuilder where
  arb_type : Option ArbitrageType
  chain : Option ChainId
  token_a : Option Address
  token_b : Option Address
  buy_route : Option SwapRoute
  sell_route : Option SwapRoute
  input_amount : Option Nat
  gas_cost_wei : Option Nat
  block_number : Option Nat
deriving DecidableEq

/-- The all-`None` builder (opportunities.rs, `OpportunityBuilder::new`). -/
def OpportunityBuilder.mk_new : OpportunityBuilder :=
  { arb_type := none, chain := none, token_a := none, token_b := none,
    buy_route := none, sell_route := none, input_amount := none,
    gas_cost_wei := none, block_number := none }

/-- Finalize the builder (opportunities.rs, `OpportunityBuilder::build`).
`now_ms` is the wall-clock millisecond count read inside the source; the
floating-point `profit_bps` computation is carried by the parameter
`profitBpsF` (applied to `input_amount` and `net_profit`), and the `f64`
literals `0.0` and `0.8` stored into `profit_usd` and `confidence` are the
parameters `usd0` and `conf0`.  The guarded subtractions are `Nat` truncated
subtraction, exact on the guarded paths.  `expires_at_ms` is the hard-coded
`now_ms + 12_000` of the source (`// 1 block on Ethereum`), wrapped at `u64`. -/
def OpportunityBuilder.build {F : Type} (b : OpportunityBuilder)
    (profitBpsF : Nat → Nat → Int) (usd0 conf0 : F) (now_ms : Nat) :
    Option (ArbitrageOpportunity F) :=
  match b.buy_route, b.sell_route with
  | some buy_route, some sell_route =>
    let input_amount := b.input_amount.getD buy_route.total_amount_in
    let output_amount := sell_route.total_amount_out
    let gas_cost_wei := b.gas_cost_wei.getD 0
    let gross_profit := if input_amount < output_amount then output_amount - input_amount else 0
    let net_profit := if gas_cost_wei < gross_profit then gross_profit - gas_cost_wei else 0
    let profit_bps := if input_amount ≠ 0 then profitBpsF input_amount net_profit else 0
    some
      { id := String.mk (Nat.toDigits 16 now_ms)
        arb_type := b.arb_type.getD ArbitrageType.CrossDex
        chain := b.chain.getD ChainId.Ethereum
        token_a := b.token_a.getD 0
        token_b := b.token_b.getD 0
        token_pair := ""
        buy_route := buy_route
        sell_route := sell_route
        input_amount := input_amount
        output_amount := output_amount
        gross_profit := gross_profit
        gas_cost_wei := gas_cost_wei
        net_profit := net_profit
        profit_bps := profit_bps
        profit_usd := usd0
        detected_at_ms := now_ms % U64MOD
        expires_at_ms := (now_ms + 12000) % U64MOD
        block_number := b.block_number.getD 0
        confidence := conf0
        competing_txs := 0 }
  | _, _ => none

/-- Gas price information (types.rs). -/
structure GasPrice where
  base_fee : Nat
  priority_fee : Nat
  max_fee : Nat
deriving DecidableEq

/-- Effective gas price (types.rs, `GasPrice::effective_gas_price`). -/
def GasPrice.effective_gas_price (g : GasPrice) : Nat :=
  uadd g.base_fee g.priority_fee

/-- Gas cost estimate (types.rs, `GasPrice::estimate_cost`). -/
def GasPrice.estimate_cost (g : GasPrice) (gas_units : Nat) : Nat :=
  umul g.effective_gas_price gas_units

/-- Route optimizer (optimizer.rs). -/
structure RouteOptimizer where
  min_profit_after_gas : Nat
  gas_price : Option GasPrice
deriving DecidableEq

/-- Default optimizer (optimizer.rs, `RouteOptimizer::new`): threshold
`10^15` wei (0.001 ETH), no gas price. -/
def RouteOptimizer.mk_new : RouteOptimizer :=
  { min_profit_after_gas := 1000000000000000, gas_price := none }

/-- Optimize an opportunity for execution (optimizer.rs,
`RouteOptimizer::optimize`).  The `u64` sum of the two gas estimates wraps at
`2 ^ 64`; the guarded subtraction is exact `Nat` subtraction.  The
floating-point `profit_bps` recomputation is carried by `profitBpsF`, and the
`calculate_confidence` score (pure `f64` arithmetic) by `calcConf`. -/
def RouteOptimizer.optimize {F : Type} (o : RouteOptimizer)
    (calcConf : ArbitrageOpportunity F → F) (profitBpsF : Nat → Nat → Int)
    (opp : ArbitrageOpportunity F) : Option (ArbitrageOpportunity F) :=
  let opp1 :=
    match o.gas_price with
    | some gp =>
      { opp with gas_cost_wei :=
          gp.estimate_cost ((opp.buy_route.gas_estimate + opp.sell_route.gas_estimate) % U64MOD) }
    | none => opp
  let opp2 :=
    { opp1 with net_profit :=
        if opp1.gas_cost_wei < opp1.gross_profit then opp1.gross_profit - opp1.gas_cost_wei
        else 0 }
  if opp2.net_profit < o.min_profit_after_gas then none
  else
    let opp3 :=
      if opp2.input_amount ≠ 0 then
        { opp2 with profit_bps := profitBpsF opp2.input_amount opp2.net_profit }
      else opp2
    some { opp3 with confidence := calcConf opp3 }

/-- Triangular arbitrage strategy (strategies.rs). -/
structure TriangularStrategy where
  min_profit_bps : Nat
deriving DecidableEq

/-- Default strategy (strategies.rs, `TriangularStrategy::new`). -/
def TriangularStrategy.mk_new : TriangularStrategy :=
  { min_profit_bps := 15 }

/-- Opportunity search of the triangular strategy (strategies.rs,
`impl Strategy for TriangularStrategy`, `find_opportunities`): the source body
is a placeholder whose comment lists the intended cycle enumeration and then
returns `Vec::new()` on every input. -/
def TriangularStrategy.find_opportunities {F : Type} (_s : TriangularStrategy)
    (_chain : ChainId) (_pools : List PoolEntry) (_state : PriceState F) :
    List (ArbitrageOpportunity F) :=
  []

/-- Specification-side output quote, written from the spec words of section
4.1: with `(r_in, r_out)` chosen by `token_in`, returns `0` if any of
`amount_in`, `r_in`, `r_out` is zero, otherwise
`(amount_in·f·r_out) / (r_in·10000 + amount_in·f)` with `f = 10000 − fee_bps`,
in exact arithmetic (the spec stipulates no intermediate overflow). -/
def spec_v2_get_amount_out (p : UniswapV2Pool) (amount_in : Nat) (token_in : Address) : Nat :=
  if amount_in = 0 ∨ p.out_reserve_in token_in = 0 ∨ p.out_reserve_out token_in = 0 then 0
  else
    amount_in * (10000 - p.fee_bps) * p.out_reserve_out token_in /
      (p.out_reserve_in token_in * 10000 + amount_in * (10000 - p.fee_bps))

/-- Specification-side input quote as amended: `0` for `amount_out = 0`; the
sentinel `U256MAX` when a selected reserve is zero or `amount_out ≥ r_out`;
otherwise the floor `⌊(r_in·amount_out·10000) / ((r_out − amount_out)·f)⌋ + 1`
(the spec wrote a ceiling; the source divides with truncation). -/
def amended_v2_get_amount_in (p : UniswapV2Pool) (amount_out : Nat) (token_out : Address) : Nat :=
  if amount_out = 0 then 0
  else if p.in_reserve_in token_out = 0 ∨ p.in_reserve_out token_out = 0 ∨
      p.in_reserve_out token_out ≤ amount_out then U256MAX
  else
    p.in_reserve_in token_out * amount_out * 10000 /
      ((p.in_reserve_out token_out - amount_out) * (10000 - p.fee_bps)) + 1

/-- A trivial basis-point recomputation standing in for the floating-point one
where its value is irrelevant. -/
def zero_bps : Nat → Nat → Int := fun _ _ => 0

/-- A trivial confidence recomputation at the degenerate float type `Unit`. -/
def unit_conf : ArbitrageOpportunity Unit → Unit := fun _ => ()

/-- Concrete stored pool for the pool-replacement counterexample: block 10. -/
def c1_pool_old : Pool :=
  Pool.UniswapV2
    { address := 5, token0 := 1, token1 := 2, reserve0 := 100, reserve1 := 100,
      fee_bps := 30, chain := ChainId.Ethereum, dex := DexProtocol.UniswapV2,
      block_number := 10 }

/-- Concrete incoming pool with the same `(chain, address)` key but an older
block (5) and different reserves. -/
def c1_pool_new : Pool :=
  Pool.UniswapV2
    { address := 5, token0 := 1, token1 := 2, reserve0 := 50, reserve1 := 100,
      fee_bps := 30, chain := ChainId.Ethereum, dex := DexProtocol.UniswapV2,
      block_number := 5 }

/-- State after storing the block-10 pool. -/
def c1_st1 : PriceState Unit := (PriceState.new Unit).update_pool c1_pool_old 0

/-- State after then delivering the block-5 pool for the same key. -/
def c1_st2 : PriceState Unit := c1_st1.update_pool c1_pool_new 1

/-- C1.  The claim says `update_pool` drops an incoming pool whose block number
is below the stored one and leaves the stored entry unchanged.  On the code the
insert is unconditional: storing a block-10 pool and then a block-5 pool for
the same `(chain, address)` key leaves the block-5 pool stored, and the stored
entry did change. -/
theorem c1_update_pool_drop_counterexample :
    Pool.block_number c1_pool_new < Pool.block_number c1_pool_old
    ∧ c1_st2.get_pool ChainId.Ethereum 5 = some { pool := c1_pool_new, updated_at := 1 }
    ∧ c1_st2.get_pool ChainId.Ethereum 5 ≠ c1_st1.get_pool ChainId.Ethereum 5 := by
  refine ⟨by decide, by decide, by decide⟩

/-- C1 (amended).  `update_pool` is an unconditional upsert: after
`update_pool(q)` the entry stored under `(q.chain, q.address)` is `q` with the
current observation time, regardless of any block number previously stored. -/
theorem c1_update_pool_unconditional_upsert {F : Type} (st : PriceState F) (pool : Pool)
    (now : Nat) :
    (st.update_pool pool now).get_pool pool.chain pool.address =
      some { pool := pool, updated_at := now } := by
  simp [PriceState.update_pool, PriceState.get_pool]

/-- C5.  The claim says `update_block(chain, n)` keeps the stored head when
`n` is below it.  On the code the insert is unconditional: after heads 5 then
3 for Ethereum, `get_block` returns 3, not 5. -/
theorem c5_update_block_counterexample :
    (((PriceState.new Unit).update_block ChainId.Ethereum 5).update_block
        ChainId.Ethereum 3).get_block ChainId.Ethereum = some 3
    ∧ (3 : Nat) < 5
    ∧ (((PriceState.new Unit).update_block ChainId.Ethereum 5).update_block
        ChainId.Ethereum 3).get_block ChainId.Ethereum ≠ some 5 := by
  refine ⟨by decide, by decide, by decide⟩

/-- C5 (amended).  `update_block` is last-writer-wins: after `update_block
(chain, m)` followed by `update_block(chain, n)`, `get_block(chain)` returns
`n` for every `m` and `n`, with no monotonicity check. -/
theorem c5_update_block_last_writer_wins {F : Type} (st : PriceState F) (chain : ChainId)
    (m n : Nat) :
    ((st.update_block chain m).update_block chain n).get_block chain = some n := by
  simp [PriceState.update_block, PriceState.get_block]

/-- Normalization of `PriceKey.new` is symmetric in the two token addresses. -/
theorem priceKey_new_comm (c : ChainId) (a b : Address) (d : DexProtocol) :
    PriceKey.new c a b d = PriceKey.new c b a d := by
  unfold PriceKey.new
  rcases Nat.lt_trichotomy a b with h | h | h
  · rw [if_pos h, if_neg (Nat.lt_asymm h)]
  · subst h
    rfl
  · rw [if_neg (Nat.lt_asymm h), if_pos h]

/-- C9.  `PriceKey.new` yields equal keys for `(chain, A, B, dex)` and
`(chain, B, A, dex)`; consequently a price stored by `update_price` (which
keys by `(chain, token, quote_token, dex)`) is returned by a `get_price`
lookup whose key is built with the two tokens in the opposite order. -/
theorem c9_price_key_symmetric_lookup {F : Type} (c : ChainId) (a b : Address)
    (d : DexProtocol) (st : PriceState F) (price : Price F) (now : Nat) :
    PriceKey.new c a b d = PriceKey.new c b a d
    ∧ (st.update_price price now).get_price
        (PriceKey.new price.chain price.quote_token price.token price.dex) =
      some { price := price, updated_at := now, block_number := price.block_number } := by
  constructor
  · exact priceKey_new_comm c a b d
  · simp only [PriceState.update_price, PriceState.get_price]
    rw [priceKey_new_comm]
    simp

/-- First leg of a concrete profitable triangle: tokens 1 → 2 at a 1:4 rate. -/
def tri_pool1 : UniswapV2Pool :=
  { address := 11, token0 := 1, token1 := 2, reserve0 := 1000000, reserve1 := 4000000,
    fee_bps := 30, chain := ChainId.Ethereum, dex := DexProtocol.UniswapV2, block_number := 1 }

/-- Second leg: tokens 2 → 3 at a 1:1 rate. -/
def tri_pool2 : UniswapV2Pool :=
  { address := 12, token0 := 2, token1 := 3, reserve0 := 1000000, reserve1 := 1000000,
    fee_bps := 30, chain := ChainId.Ethereum, dex := DexProtocol.UniswapV2, block_number := 1 }

/-- Third leg: tokens 3 → 1 at a 1:1 rate, closing the cycle. -/
def tri_pool3 : UniswapV2Pool :=
  { address := 13, token0 := 3, token1 := 1, reserve0 := 1000000, reserve1 := 1000000,
    fee_bps := 30, chain := ChainId.Ethereum, dex := DexProtocol.UniswapV2, block_number := 1 }

/-- Snapshot holding the three legs of the profitable triangle. -/
def tri_pools : List PoolEntry :=
  [ { pool := Pool.UniswapV2 tri_pool1, updated_at := 0 },
    { pool := Pool.UniswapV2 tri_pool2, updated_at := 0 },
    { pool := Pool.UniswapV2 tri_pool3, updated_at := 0 } ]

/-- C2.  The snapshot `tri_pools` contains the 3-cycle `1 → 2 → 3 → 1` whose
composed `get_amount_out` quotes turn 1000 units of token 1 into well over
1000·(1 + 15 bps), yet `TriangularStrategy::find_opportunities` returns the
empty list on it: the source body is a placeholder that returns `Vec::new()`
for every input, contradicting the spec's description of the enumeration. -/
theorem c2_triangular_placeholder_empty :
    1000 * (10000 + 15) ≤
      (tri_pool3.get_amount_out
        (tri_pool2.get_amount_out (tri_pool1.get_amount_out 1000 1) 2) 3) * 10000
    ∧ 1000 <
      tri_pool3.get_amount_out
        (tri_pool2.get_amount_out (tri_pool1.get_amount_out 1000 1) 2) 3
    ∧ TriangularStrategy.mk_new.find_opportunities ChainId.Ethereum tri_pools
        (PriceState.new Unit) = [] := by
  refine ⟨by decide, by decide, rfl⟩

/-- Evaluation of `get_amount_out` on the non-degenerate path: when no
intermediate 256-bit product or sum wraps, the wrapped operations coincide
with exact natural arithmetic and the quote is the floor division of the spec
formula. -/
theorem get_amount_out_eq_of_no_overflow (p : UniswapV2Pool) (x t : Nat)
    (hx : x ≠ 0) (hrin : p.out_reserve_in t ≠ 0) (hrout : p.out_reserve_out t ≠ 0)
    (h1 : x * (10000 - p.fee_bps) * p.out_reserve_out t < U256MOD)
    (h2 : p.out_reserve_in t * 10000 + x * (10000 - p.fee_bps) < U256MOD) :
    p.get_amount_out x t =
      x * (10000 - p.fee_bps) * p.out_reserve_out t /
        (p.out_reserve_in t * 10000 + x * (10000 - p.fee_bps)) := by
  have hxf : x * (10000 - p.fee_bps) < U256MOD :=
    lt_of_le_of_lt (Nat.le_mul_of_pos_right _ (Nat.pos_of_ne_zero hrout)) h1
  have hr10 : p.out_reserve_in t * 10000 < U256MOD :=
    lt_of_le_of_lt (Nat.le_add_right _ _) h2
  unfold UniswapV2Pool.get_amount_out
  rw [if_neg hx, if_neg (by simp [hrin, hrout])]
  simp only [umul, uadd]
  rw [Nat.mod_eq_of_lt hxf, Nat.mod_eq_of_lt h1, Nat.mod_eq_of_lt hr10, Nat.mod_eq_of_lt h2]

/-- Concrete pool for the exact-product claims: equal reserves of 1000,
30 bps fee, tokens 1 and 2. -/
def c3_pool : UniswapV2Pool :=
  { address := 7, token0 := 1, token1 := 2, reserve0 := 1000, reserve1 := 1000,
    fee_bps := 30, chain := ChainId.Ethereum, dex := DexProtocol.UniswapV2, block_number := 0 }

/-- C3.  The claim asserts the exact equation
`get_amount_out(x) · (r_in·10000 + x·f) == x·f·r_out`.  On `c3_pool` with
`x = 10` (both reserves positive) the quote is 9 and
`9 · 10_099_700 = 90_897_300 ≠ 99_700_000`: the source divides with
truncation, so the product equals the numerator only when the division is
exact. -/
theorem c3_exact_product_counterexample :
    0 < c3_pool.out_reserve_in 1
    ∧ 0 < c3_pool.out_reserve_out 1
    ∧ c3_pool.get_amount_out 10 1 *
        (c3_pool.out_reserve_in 1 * 10000 + 10 * (10000 - c3_pool.fee_bps)) ≠
      10 * (10000 - c3_pool.fee_bps) * c3_pool.out_reserve_out 1 := by
  refine ⟨by decide, by decide, by decide⟩

/-- C3 (amended).  For a V2 pool with positive selected reserves and
overflow-free intermediates, `q = get_amount_out(x)` satisfies the floor
division characterization `q·d ≤ n < q·d + d` with `n = x·f·r_out` and
`d = r_in·10000 + x·f`; the claimed exact equality `q·d = n` holds only when
`d` divides `n`. -/
theorem c3_amount_out_floor_division (p : UniswapV2Pool) (x t : Nat)
    (hrin : 0 < p.out_reserve_in t) (hrout : 0 < p.out_reserve_out t)
    (h1 : x * (10000 - p.fee_bps) * p.out_reserve_out t < U256MOD)
    (h2 : p.out_reserve_in t * 10000 + x * (10000 - p.fee_bps) < U256MOD) :
    p.get_amount_out x t * (p.out_reserve_in t * 10000 + x * (10000 - p.fee_bps)) ≤
      x * (10000 - p.fee_bps) * p.out_reserve_out t
    ∧ x * (10000 - p.fee_bps) * p.out_reserve_out t <
      p.get_amount_out x t * (p.out_reserve_in t * 10000 + x * (10000 - p.fee_bps)) +
        (p.out_reserve_in t * 10000 + x * (10000 - p.fee_bps)) := by
  have hd : 0 < p.out_reserve_in t * 10000 + x * (10000 - p.fee_bps) :=
    Nat.lt_of_lt_of_le (Nat.mul_pos hrin (by norm_num)) (Nat.le_add_right _ _)
  by_cases hx : x = 0
  · subst hx
    have hq : p.get_amount_out 0 t = 0 := by simp [UniswapV2Pool.get_amount_out]
    rw [hq]
    simpa using hd
  · rw [get_amount_out_eq_of_no_overflow p x t hx (Nat.pos_iff_ne_zero.mp hrin)
      (Nat.pos_iff_ne_zero.mp hrout) h1 h2]
    constructor
    · exact Nat.div_mul_le_self _ _
    · have hmod := Nat.div_add_mod
        (x * (10000 - p.fee_bps) * p.out_reserve_out t)
        (p.out_reserve_in t * 10000 + x * (10000 - p.fee_bps))
      have hlt := Nat.mod_lt (x * (10000 - p.fee_bps) * p.out_reserve_out t) hd
      calc x * (10000 - p.fee_bps) * p.out_reserve_out t
          = (p.out_reserve_in t * 10000 + x * (10000 - p.fee_bps)) *
              (x * (10000 - p.fee_bps) * p.out_reserve_out t /
                (p.out_reserve_in t * 10000 + x * (10000 - p.fee_bps))) +
              x * (10000 - p.fee_bps) * p.out_reserve_out t %
                (p.out_reserve_in t * 10000 + x * (10000 - p.fee_bps)) := hmod.symm
        _ < (p.out_reserve_in t * 10000 + x * (10000 - p.fee_bps)) *
              (x * (10000 - p.fee_bps) * p.out_reserve_out t /
                (p.out_reserve_in t * 10000 + x * (10000 - p.fee_bps))) +
              (p.out_reserve_in t * 10000 + x * (10000 - p.fee_bps)) :=
            Nat.add_lt_add_left hlt _
        _ = x * (10000 - p.fee_bps) * p.out_reserve_out t /
              (p.out_reserve_in t * 10000 + x * (10000 - p.fee_bps)) *
              (p.out_reserve_in t * 10000 + x * (10000 - p.fee_bps)) +
              (p.out_reserve_in t * 10000 + x * (10000 - p.fee_bps)) := by
            rw [Nat.mul_comm]

/-- Witness for the amended C3 floor-division theorem at the concrete pool
`c3_pool` with input 10 of token 1. -/
theorem c3_amount_out_floor_division_witness :
    c3_pool.get_amount_out 10 1 *
        (c3_pool.out_reserve_in 1 * 10000 + 10 * (10000 - c3_pool.fee_bps)) ≤
      10 * (10000 - c3_pool.fee_bps) * c3_pool.out_reserve_out 1
    ∧ 10 * (10000 - c3_pool.fee_bps) * c3_pool.out_reserve_out 1 <
      c3_pool.get_amount_out 10 1 *
        (c3_pool.out_reserve_in 1 * 10000 + 10 * (10000 - c3_pool.fee_bps)) +
        (c3_pool.out_reserve_in 1 * 10000 + 10 * (10000 - c3_pool.fee_bps)) :=
  c3_amount_out_floor_division c3_pool 10 1 (by decide) (by decide) (by decide) (by decide)

/-- C7.  `get_amount_out` agrees with the specification formula: zero result
when `amount_in` or a `token_in`-selected reserve is zero, otherwise the
truncated division `(amount_in·f·r_out) / (r_in·10000 + amount_in·f)` with
`f = 10000 − fee_bps`, provided no 256-bit intermediate wraps (the spec's
no-intermediate-overflow proviso). -/
theorem c7_amount_out_spec_refinement (p : UniswapV2Pool) (x t : Nat)
    (h1 : x * (10000 - p.fee_bps) * p.out_reserve_out t < U256MOD)
    (h2 : p.out_reserve_in t * 10000 + x * (10000 - p.fee_bps) < U256MOD) :
    p.get_amount_out x t = spec_v2_get_amount_out p x t := by
  by_cases hx : x = 0
  · subst hx
    simp [UniswapV2Pool.get_amount_out, spec_v2_get_amount_out]
  · by_cases hrin : p.out_reserve_in t = 0
    · simp [UniswapV2Pool.get_amount_out, spec_v2_get_amount_out, hx, hrin]
    · by_cases hrout : p.out_reserve_out t = 0
      · simp [UniswapV2Pool.get_amount_out, spec_v2_get_amount_out, hx, hrin, hrout]
      · rw [get_amount_out_eq_of_no_overflow p x t hx hrin hrout h1 h2]
        unfold spec_v2_get_amount_out
        rw [if_neg (by simp [hx, hrin, hrout])]

/-- Witness for the C7 refinement at the concrete pool `c3_pool` with input 10
of token 1 (and the overflow bounds discharged by evaluation). -/
theorem c7_amount_out_spec_refinement_witness :
    c3_pool.get_amount_out 10 1 = spec_v2_get_amount_out c3_pool 10 1 :=
  c7_amount_out_spec_refinement c3_pool 10 1 (by decide) (by decide)

/-- Concrete pool for the `get_amount_in` claims: reserves 10 and 10, 30 bps
fee, tokens 1 and 2. -/
def c6_pool : UniswapV2Pool :=
  { address := 8, token0 := 1, token1 := 2, reserve0 := 10, reserve1 := 10,
    fee_bps := 30, chain := ChainId.Ethereum, dex := DexProtocol.UniswapV2, block_number := 0 }

/-- Concrete pool with a zero output reserve for `token_out = token1`. -/
def c6_pool_zero : UniswapV2Pool :=
  { address := 9, token0 := 1, token1 := 2, reserve0 := 10, reserve1 := 0,
    fee_bps := 30, chain := ChainId.Ethereum, dex := DexProtocol.UniswapV2, block_number := 0 }

/-- C6.  Two deviations from the claim.  First, the claimed value is
`⌈(r_in·amount_out·10000) / ((r_out − amount_out)·f)⌉ + 1`, but on `c6_pool`
with `amount_out = 3` toward token 2 the source returns
`⌊300000 / 69790⌋ + 1 = 5` while the ceiling formula gives `6`.  Second, the
claim demands the sentinel whenever `amount_out ≥ r_out`, but with
`amount_out = 0` and `r_out = 0` (so `amount_out ≥ r_out`) the source returns
`0`, not the sentinel. -/
theorem c6_amount_in_ceiling_counterexample :
    c6_pool.get_amount_in 3 2 = 5
    ∧ (c6_pool.in_reserve_in 2 * 3 * 10000 +
        ((c6_pool.in_reserve_out 2 - 3) * (10000 - c6_pool.fee_bps) - 1)) /
        ((c6_pool.in_reserve_out 2 - 3) * (10000 - c6_pool.fee_bps)) + 1 = 6
    ∧ c6_pool_zero.in_reserve_out 2 ≤ 0
    ∧ c6_pool_zero.get_amount_in 0 2 ≠ U256MAX := by
  refine ⟨by decide, by decide, by decide, by decide⟩

/-- C6 (amended).  `get_amount_in` returns `0` for `amount_out = 0`; returns
the sentinel `U256::MAX` when a `token_out`-selected reserve is zero or
`amount_out ≥ r_out` (with `amount_out > 0`); and otherwise returns the floor
`⌊(r_in·amount_out·10000) / ((r_out − amount_out)·f)⌋ + 1`, for
`fee_bps < 10000` and overflow-free intermediates. -/
theorem c6_amount_in_floor_formula (p : UniswapV2Pool) (a t : Nat)
    (hfee : p.fee_bps < 10000)
    (hno1 : p.in_reserve_in t * a * 10000 < U256MAX)
    (hno2 : (p.in_reserve_out t - a) * (10000 - p.fee_bps) < U256MOD) :
    p.get_amount_in a t = amended_v2_get_amount_in p a t := by
  have hMM : U256MAX < U256MOD := by norm_num [U256MAX, U256MOD]
  unfold UniswapV2Pool.get_amount_in amended_v2_get_amount_in
  by_cases ha : a = 0
  · rw [if_pos ha, if_pos ha]
  · rw [if_neg ha, if_neg ha]
    by_cases hs : p.in_reserve_in t = 0 ∨ p.in_reserve_out t = 0 ∨ p.in_reserve_out t ≤ a
    · rw [if_pos hs, if_pos hs]
    · rw [if_neg hs, if_neg hs]
      have h1 : p.in_reserve_in t * a < U256MOD := by
        calc p.in_reserve_in t * a
            ≤ p.in_reserve_in t * a * 10000 := Nat.le_mul_of_pos_right _ (by norm_num)
          _ < U256MAX := hno1
          _ < U256MOD := hMM
      have h2 : p.in_reserve_in t * a * 10000 < U256MOD := lt_trans hno1 hMM
      simp only [umul, uadd]
      rw [Nat.mod_eq_of_lt h1, Nat.mod_eq_of_lt h2, Nat.mod_eq_of_lt hno2]
      have hq : p.in_reserve_in t * a * 10000 /
          ((p.in_reserve_out t - a) * (10000 - p.fee_bps)) + 1 < U256MOD := by
        have hds := Nat.div_le_self (p.in_reserve_in t * a * 10000)
          ((p.in_reserve_out t - a) * (10000 - p.fee_bps))
        omega
      rw [Nat.mod_eq_of_lt hq]

/-- Witness for the amended C6 theorem at the concrete pool `c6_pool`,
requesting 3 units of token 2. -/
theorem c6_amount_in_floor_formula_witness :
    c6_pool.get_amount_in 3 2 = amended_v2_get_amount_in c6_pool 3 2 :=
  c6_amount_in_floor_formula c6_pool 3 2 (by decide) (by decide) (by decide)

/-- Single-hop route on Arbitrum used by the expiry counterexample. -/
def c4_route : SwapRoute :=
  { steps := [], chain := ChainId.Arbitrum, total_amount_in := 0, total_amount_out := 0,
    gas_estimate := 150000, price_impact_bps := 0 }

/-- Builder populated with an Arbitrum chain and both routes. -/
def c4_builder : OpportunityBuilder :=
  { OpportunityBuilder.mk_new with
    chain := some ChainId.Arbitrum,
    buy_route := some c4_route,
    sell_route := some c4_route }

/-- The opportunity `c4_builder` produces at `now_ms = 1000`. -/
def c4_built : ArbitrageOpportunity Unit :=
  { id := String.mk (Nat.toDigits 16 1000), arb_type := ArbitrageType.CrossDex,
    chain := ChainId.Arbitrum, token_a := 0, token_b := 0, token_pair := "",
    buy_route := c4_route, sell_route := c4_route, input_amount := 0, output_amount := 0,
    gross_profit := 0, gas_cost_wei := 0, net_profit := 0, profit_bps := 0,
    profit_usd := (), detected_at_ms := 1000 % U64MOD, expires_at_ms := 13000 % U64MOD,
    block_number := 0, confidence := (), competing_txs := 0 }

/-- C4.  The claim says the default expiry window equals the chain's nominal
block time.  The source hard-codes `expires_at_ms = now_ms + 12_000` for every
chain: an opportunity built for Arbitrum gets a 12 000 ms window although
Arbitrum's nominal block time is 250 ms. -/
theorem c4_expiry_counterexample :
    c4_builder.build zero_bps () () 1000 = some c4_built
    ∧ c4_built.chain = ChainId.Arbitrum
    ∧ c4_built.expires_at_ms - c4_built.detected_at_ms = 12000
    ∧ ChainId.block_time_ms c4_built.chain = 250
    ∧ (12000 : Nat) ≠ 250 := by
  refine ⟨by decide, by decide, by decide, by decide, by decide⟩

/-- C4 (amended).  For every opportunity the builder produces (it offers no
expiry setter at all), `expires_at − detected_at` is the constant 12 000 ms —
one Ethereum block — independent of the chain, provided the `u64` addition
`now_ms + 12_000` does not wrap. -/
theorem c4_expiry_constant_12000 {F : Type} (b : OpportunityBuilder)
    (pf : Nat → Nat → Int) (u c : F) (now_ms : Nat) (opp : ArbitrageOpportunity F)
    (hlt : now_ms + 12000 < U64MOD)
    (h : b.build pf u c now_ms = some opp) :
    opp.expires_at_ms - opp.detected_at_ms = 12000 ∧ opp.detected_at_ms = now_ms := by
  have hnow : now_ms < U64MOD := lt_of_le_of_lt (Nat.le_add_right _ _) hlt
  cases hbr : b.buy_route with
  | none =>
    rw [OpportunityBuilder.build, hbr] at h
    simp at h
  | some buy =>
    cases hsr : b.sell_route with
    | none =>
      rw [OpportunityBuilder.build, hbr, hsr] at h
      simp at h
    | some sell =>
      rw [OpportunityBuilder.build, hbr, hsr] at h
      simp only [Option.some.injEq] at h
      subst h
      refine ⟨?_, Nat.mod_eq_of_lt hnow⟩
      show (now_ms + 12000) % U64MOD - now_ms % U64MOD = 12000
      rw [Nat.mod_eq_of_lt hlt, Nat.mod_eq_of_lt hnow]
      omega

/-- Witness for the amended C4 theorem at the concrete builder `c4_builder`
and `now_ms = 1000`. -/
theorem c4_expiry_constant_12000_witness :
    c4_built.expires_at_ms - c4_built.detected_at_ms = 12000
    ∧ c4_built.detected_at_ms = 1000 :=
  c4_expiry_constant_12000 c4_builder zero_bps () () 1000 c4_built (by decide) (by decide)

/-- C8.  With a gas price set, `optimize` assigns
`gas_cost_wei = (base_fee + priority_fee) · (buy.gas_estimate + sell.gas_estimate)`
(256-bit product of the wrapped `u64` gas sum), recomputes
`net_profit = max(gross_profit − gas_cost_wei, 0)` (truncated `Nat`
subtraction), and returns `none` exactly when that recomputed net profit is
below `min_profit_after_gas`, whose default is `10^15` wei. -/
theorem c8_optimize_gas_and_threshold {F : Type} (o : RouteOptimizer) (gp : GasPrice)
    (calcConf : ArbitrageOpportunity F → F) (pf : Nat → Nat → Int)
    (opp r : ArbitrageOpportunity F) (hgp : o.gas_price = some gp) :
    (o.optimize calcConf pf opp = none ↔
      opp.gross_profit - gp.estimate_cost
          ((opp.buy_route.gas_estimate + opp.sell_route.gas_estimate) % U64MOD) <
        o.min_profit_after_gas)
    ∧ (o.optimize calcConf pf opp = some r →
        r.gas_cost_wei = gp.estimate_cost
            ((opp.buy_route.gas_estimate + opp.sell_route.gas_estimate) % U64MOD)
        ∧ r.net_profit = opp.gross_profit - gp.estimate_cost
            ((opp.buy_route.gas_estimate + opp.sell_route.gas_estimate) % U64MOD))
    ∧ RouteOptimizer.mk_new.min_profit_after_gas = 10 ^ 15 := by
  have hX : ∀ a b : Nat, (if a < b then b - a else 0) = b - a := by
    intro a b
    split <;> omega
  refine ⟨?_, ?_, by norm_num [RouteOptimizer.mk_new]⟩
  · simp only [RouteOptimizer.optimize, hgp]
    rw [hX]
    split
    next h => simp [h]
    next h => simp [h]
  · intro h
    simp only [RouteOptimizer.optimize, hgp] at h
    rw [hX] at h
    split at h
    next => exact absurd h (by simp)
    next =>
      split at h
      next =>
        simp only [Option.some.injEq] at h
        subst h
        exact ⟨rfl, rfl⟩
      next =>
        simp only [Option.some.injEq] at h
        subst h
        exact ⟨rfl, rfl⟩

/-- Gas price used by the optimizer witnesses: effective price 2 wei. -/
def c8_gas : GasPrice := { base_fee := 1, priority_fee := 1, max_fee := 2 }

/-- Optimizer with threshold 10 wei and the witness gas price set. -/
def c8_opt : RouteOptimizer := { min_profit_after_gas := 10, gas_price := some c8_gas }

/-- Buy route of the optimizer witnesses, gas estimate 3. -/
def opt_route_buy : SwapRoute :=
  { steps := [], chain := ChainId.Ethereum, total_amount_in := 0, total_amount_out := 0,
    gas_estimate := 3, price_impact_bps := 0 }

/-- Sell route of the optimizer witnesses, gas estimate 4. -/
def opt_route_sell : SwapRoute :=
  { steps := [], chain := ChainId.Ethereum, total_amount_in := 0, total_amount_out := 0,
    gas_estimate := 4, price_impact_bps := 0 }

/-- Concrete opportunity fed to the optimizer: gross profit 100 wei. -/
def c8_opp : ArbitrageOpportunity Unit :=
  { id := "opp8", arb_type := ArbitrageType.CrossDex, chain := ChainId.Ethereum,
    token_a := 1, token_b := 2, token_pair := "", buy_route := opt_route_buy,
    sell_route := opt_route_sell, input_amount := 50, output_amount := 150,
    gross_profit := 100, gas_cost_wei := 0, net_profit := 0, profit_bps := 0,
    profit_usd := (), detected_at_ms := 0, expires_at_ms := 12000, block_number := 1,
    confidence := (), competing_txs := 0 }

/-- The opportunity `c8_opt` produces from `c8_opp`: gas cost 2·7 = 14, net
profit 100 − 14 = 86. -/
def c8_res : ArbitrageOpportunity Unit :=
  { c8_opp with gas_cost_wei := 14, net_profit := 86 }

/-- Witness for C8 at the concrete optimizer `c8_opt` and opportunity
`c8_opp`. -/
theorem c8_optimize_gas_and_threshold_witness :
    c8_opt.optimize unit_conf zero_bps c8_opp = some c8_res
    ∧ c8_res.gas_cost_wei = 14
    ∧ c8_res.net_profit = 86
    ∧ RouteOptimizer.mk_new.min_profit_after_gas = 10 ^ 15 := by
  have h := c8_optimize_gas_and_threshold c8_opt c8_gas unit_conf zero_bps c8_opp c8_res rfl
  exact ⟨by decide, (h.2.1 (by decide)).1.trans (by decide),
    (h.2.1 (by decide)).2.trans (by decide), h.2.2⟩

/-- C10.  When `optimize` accepts an opportunity, every field other than
`gas_cost_wei`, `net_profit`, `profit_bps` and `confidence` — id, kind, chain,
both tokens, the pair label, both routes, amounts, gross profit, timing,
block number and competition count — is returned unchanged. -/
theorem c10_optimize_frame {F : Type} (o : RouteOptimizer)
    (calcConf : ArbitrageOpportunity F → F) (pf : Nat → Nat → Int)
    (opp r : ArbitrageOpportunity F) (h : o.optimize calcConf pf opp = some r) :
    r.id = opp.id ∧ r.arb_type = opp.arb_type ∧ r.chain = opp.chain
    ∧ r.token_a = opp.token_a ∧ r.token_b = opp.token_b ∧ r.token_pair = opp.token_pair
    ∧ r.buy_route = opp.buy_route ∧ r.sell_route = opp.sell_route
    ∧ r.input_amount = opp.input_amount ∧ r.output_amount = opp.output_amount
    ∧ r.gross_profit = opp.gross_profit ∧ r.profit_usd = opp.profit_usd
    ∧ r.detected_at_ms = opp.detected_at_ms ∧ r.expires_at_ms = opp.expires_at_ms
    ∧ r.block_number = opp.block_number ∧ r.competing_txs = opp.competing_txs := by
  have hX : ∀ a b : Nat, (if a < b then b - a else 0) = b - a := by
    intro a b
    split <;> omega
  cases hgp : o.gas_price with
  | none =>
    simp only [RouteOptimizer.optimize, hgp] at h
    rw [hX] at h
    split at h
    next => exact absurd h (by simp)
    next =>
      split at h
      next =>
        simp only [Option.some.injEq] at h
        subst h
        exact ⟨rfl, rfl, rfl, rfl, rfl, rfl, rfl, rfl, rfl, rfl, rfl, rfl, rfl, rfl, rfl, rfl⟩
      next =>
        simp only [Option.some.injEq] at h
        subst h
        exact ⟨rfl, rfl, rfl, rfl, rfl, rfl, rfl, rfl, rfl, rfl, rfl, rfl, rfl, rfl, rfl, rfl⟩
  | some gp =>
    simp only [RouteOptimizer.optimize, hgp] at h
    rw [hX] at h
    split at h
    next => exact absurd h (by simp)
    next =>
      split at h
      next =>
        simp only [Option.some.injEq] at h
        subst h
        exact ⟨rfl, rfl, rfl, rfl, rfl, rfl, rfl, rfl, rfl, rfl, rfl, rfl, rfl, rfl, rfl, rfl⟩
      next =>
        simp only [Option.some.injEq] at h
        subst h
        exact ⟨rfl, rfl, rfl, rfl, rfl, rfl, rfl, rfl, rfl, rfl, rfl, rfl, rfl, rfl, rfl, rfl⟩

/-- Optimizer with no gas price and threshold 0, used by the frame witness. -/
def c10_opt : RouteOptimizer := { min_profit_after_gas := 0, gas_price := none }

/-- The opportunity `c10_opt` produces from `c8_opp`. -/
def c10_res : ArbitrageOpportunity Unit := { c8_opp with net_profit := 100 }

/-- Witness for C10 at the concrete optimizer `c10_opt` and opportunity
`c8_opp`. -/
theorem c10_optimize_frame_witness :
    c10_res.id = c8_opp.id ∧ c10_res.arb_type = c8_opp.arb_type
    ∧ c10_res.chain = c8_opp.chain
    ∧ c10_res.token_a = c8_opp.token_a ∧ c10_res.token_b = c8_opp.token_b
    ∧ c10_res.token_pair = c8_opp.token_pair
    ∧ c10_res.buy_route = c8_opp.buy_route ∧ c10_res.sell_route = c8_opp.sell_route
    ∧ c10_res.input_amount = c8_opp.input_amount
    ∧ c10_res.output_amount = c8_opp.output_amount
    ∧ c10_res.gross_profit = c8_opp.gross_profit ∧ c10_res.profit_usd = c8_opp.profit_usd
    ∧ c10_res.detected_at_ms = c8_opp.detected_at_ms
    ∧ c10_res.expires_at_ms = c8_opp.expires_at_ms
    ∧ c10_res.block_number = c8_opp.block_number
    ∧ c10_res.competing_txs = c8_opp.competing_txs :=
  c10_optimize_frame c10_opt unit_conf zero_bps c8_opp c10_res (by decide)
